import Mathlib

/-!
# Verification of the ePaper admin frontend

Shallow embedding of the client-side logic of the ePaper admin console:
the session store (`src/context/AuthContext.tsx` and the auth API module),
the role-based navigation filter (`src/layout/AppSidebar.tsx`), the route
guard (`src/components/auth/ProtectedRoute.tsx`), the public landing
edition lookup (`src/components/public/LandingPage.tsx`), the error
normalization helper of the epaper API module, and the drag-reorder
handler of `src/components/epaper/EpaperForm.tsx`.

Browser storage (`localStorage` / `sessionStorage`) is modelled as an
association list of string keys to string values with the Web Storage
`getItem` / `setItem` / `removeItem` operations.  `JSON.stringify` /
`JSON.parse` of the user record are modelled abstractly: the claims only
depend on whether parsing succeeds or fails, never on the wire format.
-/

namespace EpaperApp

/-! ## Web Storage model -/

/-- One browser storage scope (`localStorage` or `sessionStorage`),
modelled extensionally as a partial map from keys to values.  The Web
Storage API is a browser built-in, not code of this repository, so the
model only has to satisfy its documented `getItem` / `setItem` /
`removeItem` behaviour. -/
def Store := String → Option String

namespace Store

/-- The empty storage scope. -/
def empty : Store := fun _ => none

/-- `storage.getItem(k)`: the value bound to `k`, if any. -/
def getItem (s : Store) (k : String) : Option String := s k

/-- `storage.removeItem(k)`: drop the binding of `k`. -/
def removeItem (s : Store) (k : String) : Store :=
  fun k' => if k' = k then none else s k'

/-- `storage.setItem(k, v)`: bind `k` to `v`, replacing any old binding. -/
def setItem (s : Store) (k v : String) : Store :=
  fun k' => if k' = k then some v else s k'

end Store

/-! ## Data model (`src/context/AuthContext.tsx`, epaper API module) -/

/-- The normalized user record of `AuthContext.tsx`. -/
structure User where
  _id : String
  id : String
  fullName : String
  email : String
  userName : String
  role : String
  createdAt : Option String := none
  updatedAt : Option String := none
  deriving Repr, DecidableEq

/-- Storage keys of `AuthContext.tsx` / the auth API module
(`TOKEN_KEY = "epaper_auth_token"`, `USER_KEY = "epaper_auth_user"`). -/
def TOKEN_KEY : String := "epaper_auth_token"

/-- See `TOKEN_KEY`. -/
def USER_KEY : String := "epaper_auth_user"

/-- `JSON.stringify` of the normalized user.  The claims depend only on
the serialized value being stored and retrieved, never on the format, so
any injective encoding is faithful; field values are concatenated with a
separator. -/
def stringifyUser (u : User) : String :=
  String.intercalate "\u0000"
    [u._id, u.id, u.fullName, u.email, u.userName, u.role,
     u.createdAt.getD "", u.updatedAt.getD ""]

/-- The client-side state the session claims are about: the two Web
Storage scopes plus the token propagated to the HTTP client wrapper
(`setAuthToken`). -/
structure ClientState where
  localS : Store
  sessionS : Store
  httpToken : Option String

/-- The state at first visit: both scopes empty, no token propagated. -/
def ClientState.empty : ClientState :=
  { localS := Store.empty, sessionS := Store.empty, httpToken := none }

/-! ## Auth API module (`setToken` / `getToken` / `clearToken` / `login`) -/

/-- `setToken` of the auth API module: a non-null token is written to
`localStorage` and propagated via `setAuthToken`; null removes the
`localStorage` entry and clears the propagated token. -/
def setToken (st : ClientState) (token : Option String) : ClientState :=
  match token with
  | some t =>
      { st with localS := st.localS.setItem TOKEN_KEY t, httpToken := some t }
  | none =>
      { st with localS := st.localS.removeItem TOKEN_KEY, httpToken := none }

/-- `getToken` of the auth API module: reads `localStorage` only. -/
def getToken (st : ClientState) : Option String :=
  st.localS.getItem TOKEN_KEY

/-- `clearToken` of the auth API module: `setToken(null)`. -/
def clearToken (st : ClientState) : ClientState :=
  setToken st none

/-- The raw user record of the `/auth/login` response: every field may be
missing, which `AuthContext.login` papers over with `|| ""` (`|| "Staff"`
for the role). -/
structure ApiUser where
  _id : Option String := none
  fullName : Option String := none
  email : Option String := none
  userName : Option String := none
  role : Option String := none
  createdAt : Option String := none
  updatedAt : Option String := none
  deriving Repr, DecidableEq

/-- JavaScript `x || d` for an optional string `x`: a missing or empty
(falsy) string falls back to the default. -/
def jsOr (x : Option String) (d : String) : String :=
  match x with
  | some s => if s = "" then d else s
  | none => d

/-- JavaScript `a || b` where both sides are `string | null`:
the left value is kept iff it is truthy (present and non-empty). -/
def jsOrElse (a b : Option String) : Option String :=
  match a with
  | some s => if s = "" then b else some s
  | none => b

/-- The user normalization of `AuthContext.login` (lines 74-83 of
`AuthContext.tsx`). -/
def normalizeUser (a : ApiUser) : User :=
  { _id := jsOr a._id ""
    id := jsOr a._id ""
    fullName := jsOr a.fullName ""
    email := jsOr a.email ""
    userName := jsOr a.userName ""
    role := jsOr a.role "Staff"
    createdAt := a.createdAt
    updatedAt := a.updatedAt }

/-- The `/auth/login` response body: `{token?, user}`. -/
structure AuthResponse where
  token : Option String
  user : ApiUser

/-- The success path of `login` in the auth API module: if the response
carries a token it is stored via `setToken`; the response user is
returned. -/
def authApiLogin (st : ClientState) (resp : AuthResponse) : ClientState × ApiUser :=
  match resp.token with
  | some t => (setToken st (some t), resp.user)
  | none => (st, resp.user)

/-- `login` of the Session Store (`AuthContext.tsx` lines 55-99), given a
successful `/auth/login` response.  Steps, exactly as in the source:
`authApi.login` stores a response token via `setToken` (always to
`localStorage`); `authApi.getToken()` reads the token back from
`localStorage`; a falsy token raises "Token missing from response";
otherwise the normalized user and the token are written to the scope
selected by `remember` and the token is propagated via `setAuthToken`. -/
def contextLogin (st : ClientState) (resp : AuthResponse)
    (remember : Bool) : Except String (ClientState × User) :=
  let st1 := (authApiLogin st resp).1
  let apiUser := (authApiLogin st resp).2
  match getToken st1 with
  | none => .error "Token missing from response"
  | some token =>
      if token = "" then .error "Token missing from response"
      else
        let nu := normalizeUser apiUser
        let ser := stringifyUser nu
        if remember then
          .ok ({ st1 with
                   localS := (st1.localS.setItem TOKEN_KEY token).setItem USER_KEY ser
                   httpToken := some token }, nu)
        else
          .ok ({ st1 with
                   sessionS := (st1.sessionS.setItem TOKEN_KEY token).setItem USER_KEY ser
                   httpToken := some token }, nu)

/-- `logout` of the Session Store (`AuthContext.tsx` lines 101-111):
removes both keys from both scopes, then `authApi.clearToken()`
(which removes the `localStorage` token again and propagates null). -/
def logout (st : ClientState) : ClientState :=
  clearToken
    { localS := (st.localS.removeItem TOKEN_KEY).removeItem USER_KEY
      sessionS := (st.sessionS.removeItem TOKEN_KEY).removeItem USER_KEY
      httpToken := st.httpToken }

/-- The token part of startup session reconstruction
(`AuthContext.tsx` lines 34-36): `localStorage` first, `||`-fallback to
`sessionStorage`. -/
def initToken (st : ClientState) : Option String :=
  jsOrElse (st.localS.getItem TOKEN_KEY) (st.sessionS.getItem TOKEN_KEY)

/-- The user part of startup session reconstruction (`AuthContext.tsx`
lines 38-46).  `JSON.parse` is a browser built-in, passed in as `parse`;
the `try { raw ? JSON.parse(raw) : null } catch { return null }` of the
source becomes: a missing or falsy raw value gives no user, a parse
failure gives no user, a parse success gives the parsed user. -/
def initUser (parse : String → Except String User) (st : ClientState) :
    Option User :=
  match jsOrElse (st.localS.getItem USER_KEY) (st.sessionS.getItem USER_KEY) with
  | none => none
  | some raw =>
      if raw = "" then none
      else
        match parse raw with
        | .ok u => some u
        | .error _ => none

/-- Projection used to state results about a successful login: the client
state of an `ok` outcome (the empty state for an error, never the case
under the theorems' hypotheses). -/
def okState (r : Except String (ClientState × User)) : ClientState :=
  match r with
  | .ok (s, _) => s
  | .error _ => ClientState.empty

/-! ## Navigation model (`src/layout/AppSidebar.tsx`) -/

/-- A sidebar sub-item (the `icon`-free data of the `SubItem` type). -/
structure SubItem where
  name : String
  path : String
  pro : Option Bool := none
  isNew : Option Bool := none
  allowedRoles : Option (List String) := none
  deriving Repr, DecidableEq

/-- A top-level sidebar item.  The `icon` field of the source is a React
node with no bearing on visibility and is omitted. -/
structure NavItem where
  name : String
  path : Option String := none
  subItems : Option (List SubItem) := none
  allowedRoles : Option (List String) := none
  deriving Repr, DecidableEq

/-- The fixed navigation tree (`AppSidebar.tsx` lines 24-69). -/
def navItems : List NavItem :=
  [ { name := "Dashboard"
      path := some "/admin-dashboard"
      allowedRoles := some ["SuperAdmin", "Admin", "Staff"] },
    { name := "Epaper"
      subItems := some
        [ { name := "Add New Epaper"
            path := "/admin-dashboard/epapers/create"
            pro := some false
            allowedRoles := some ["SuperAdmin", "Admin"] },
          { name := "All Epaper"
            path := "/admin-dashboard/epapers/"
            pro := some false
            allowedRoles := some ["SuperAdmin", "Admin", "Staff"] } ]
      allowedRoles := some ["SuperAdmin", "Admin", "Staff"] },
    { name := "User"
      subItems := some
        [ { name := "User Register"
            path := "/admin-dashboard/users/create"
            pro := some false
            allowedRoles := some ["SuperAdmin", "Admin"] },
          { name := "All User"
            path := "/admin-dashboard/users/"
            pro := some false
            allowedRoles := some ["SuperAdmin", "Admin"] } ]
      allowedRoles := some ["SuperAdmin", "Admin"] } ]

/-- `hasAccess` (`AppSidebar.tsx` lines 89-96).  `userRole` is
`currentUser?.role`: `none` models a missing user or role, and the JS
falsiness test `if (!role)` also rejects an empty-string role. -/
def hasAccess (allowedRoles : Option (List String))
    (userRole : Option String) : Bool :=
  match allowedRoles with
  | none => true
  | some rs =>
      if rs.length = 0 then true
      else
        match userRole with
        | none => false
        | some role => if role = "" then false else rs.contains role

/-- Every `allowedRoles` annotation of the tree, top level and sub-item
level alike — the visibility of an entry is `hasAccess` of exactly its
own annotation (`AppSidebar.tsx` lines 151 and 208, each level tested
independently). -/
def navEntryAllowedRoles : List (Option (List String)) :=
  navItems.map (·.allowedRoles) ++
    (navItems.map (fun n => (n.subItems.getD []).map (·.allowedRoles))).flatten

/-- The three roles of the system. -/
def allRoles : List String := ["SuperAdmin", "Admin", "Staff"]

/-! ## Route guard (`src/components/auth/ProtectedRoute.tsx`) -/

/-- What one evaluation of the guard renders. -/
inductive RouteResult where
  | loading
  | redirect (dest : String)
  | children
  deriving Repr, DecidableEq

/-- `ProtectedRoute` (lines 12-33): loading state first, then the
sign-in redirect for a missing user, then the role check against the
optional `roles` prop (`user.role || ""` in the source), with the
fallback redirect defaulting to `"/"`. -/
def protectedRoute (loading : Bool) (user : Option User)
    (roles : Option (List String)) (redirectTo : String := "/") : RouteResult :=
  if loading then .loading
  else
    match user with
    | none => .redirect "/signin"
    | some u =>
        match roles with
        | some rs =>
            if ¬ rs.contains (jsOr (some u.role) "") then .redirect redirectTo
            else .children
        | none => .children

/-! ## Epaper data model and public landing lookup
(`epaper.api` module, `src/components/public/LandingPage.tsx`) -/

/-- `EpaperImage` of the epaper API module. -/
structure EpaperImage where
  _id : Option String := none
  pageNumber : Nat
  imageUrl : String := ""
  originalName : String := ""
  mimeType : String := ""
  size : Nat := 0
  uploadedAt : Option String := none
  deriving Repr, DecidableEq

/-- `Epaper` of the epaper API module; the PDF descriptor carries no
lookup-relevant structure and is reduced to its `fileUrl`. -/
structure Epaper where
  _id : Option String := none
  name : String
  date : String
  images : List EpaperImage := []
  pdf : Option String := none
  fileType : String := "images"
  totalPages : Nat := 0
  status : String := "draft"
  deriving Repr, DecidableEq

/-- A toast notification as issued through `useToast`. -/
structure Toast where
  variant : String
  title : String
  message : String
  deriving Repr, DecidableEq

/-- The "Showing latest edition" info toast of `loadEpaper`. -/
def showingLatestToast : Toast :=
  { variant := "info"
    title := "Showing latest edition"
    message := "No edition found for the selected date — displaying the latest published ePaper." }

/-- The "No ePaper" toast of `loadEpaper`. -/
def noEpaperToast : Toast :=
  { variant := "error"
    title := "No ePaper"
    message := "No published ePaper is currently available." }

/-- The fallback-failure toast of `loadEpaper`. -/
def latestFetchErrorToast : Toast :=
  { variant := "error"
    title := "Error"
    message := "Unable to fetch ePapers at this time." }

/-- The component state a `loadEpaper` run leaves behind, plus
`fallbackQueried`: whether the run issued the fallback
`GET /epapers?page=1&limit=1&status=published` request. -/
structure LookupOutcome where
  epaper : Option Epaper
  error : Option String
  toast : Option Toast
  fallbackQueried : Bool
  loading : Bool
  deriving Repr, DecidableEq

/-- `loadEpaper` of the public landing page (`LandingPage.tsx` lines
81-153) as a pure function of the two query outcomes.  `byDate` is the
result of `getEpaperByDate` — `.error` is the thrown normalized error
(the epaper API client throws both on a 404 and on a transport failure),
`.ok none` a falsy 200 body; `latest` is the result of the fallback
query (`some` = first element of the returned page).  The inner
`try/catch` around attempt 1 catches every thrown error and falls
through to attempt 2, so `latest` is consulted in exactly the branches
recorded by `fallbackQueried`.  `prevEpaper` is the `epaper` state from
before the run, kept only by the branch that never calls `setEpaper`.
The `setSelectedDate` bookkeeping re-fires the effect for a different
date and is outside every claim. -/
def loadEpaper (prevEpaper : Option Epaper)
    (byDate : Except String (Option Epaper))
    (latest : Except String (Option Epaper)) : LookupOutcome :=
  match byDate with
  | .ok (some data) =>
      { epaper := some data, error := none, toast := none,
        fallbackQueried := false, loading := false }
  | _ =>
      match latest with
      | .ok (some l) =>
          { epaper := some l, error := none, toast := some showingLatestToast,
            fallbackQueried := true, loading := false }
      | .ok none =>
          { epaper := none, error := some "No published ePaper available",
            toast := some noEpaperToast,
            fallbackQueried := true, loading := false }
      | .error _ =>
          { epaper := prevEpaper, error := some "Failed to fetch latest ePaper",
            toast := some latestFetchErrorToast,
            fallbackQueried := true, loading := false }

/-! ## Error normalization (`extractErrorMessage` of the epaper API
module, lines 77-92) -/

/-- The `data` of an HTTP error response, as probed by
`extractErrorMessage`: a bare string body, an object body (whose
`message` / `error` properties may be absent or non-string — modelled by
`Option (Option String)`: outer `none` = property absent, inner `none` =
present but not a string), or anything else (`null`, a number, ...). -/
inductive ResponseData where
  | str (s : String)
  | obj (message : Option (Option String)) (error : Option (Option String))
  | other
  deriving Repr, DecidableEq

/-- A value caught by the `catch` of a Resource Client operation:
an axios error (with optional response data and the transport-level
`err.message`), a plain `Error`, a thrown string, or any other thrown
value. -/
inductive CaughtError where
  | axios (data : Option ResponseData) (message : String)
  | jsError (message : String)
  | str (s : String)
  | other
  deriving Repr, DecidableEq

/-- `extractErrorMessage` (epaper API module, lines 77-92), exactly the
source's probe order: a string body is returned directly; an object
body's string `message` then string `error` property; then
`err.message || "Request failed"`; a non-axios `Error`'s message; a
thrown string itself; else `"Unknown error occurred"`. -/
def extractErrorMessage : CaughtError → String
  | .axios data msg =>
      match data with
      | some (.str s) => s
      | some (.obj m e) =>
          match m with
          | some (some x) => x
          | _ =>
              match e with
              | some (some y) => y
              | _ => if msg = "" then "Request failed" else msg
      | some .other => if msg = "" then "Request failed" else msg
      | none => if msg = "" then "Request failed" else msg
  | .jsError m => m
  | .str s => s
  | .other => "Unknown error occurred"

/-- Every failed Resource Client operation re-throws
`new Error(extractErrorMessage(err))`: failures reach the caller as a
single string-carrying error value. -/
def normalizeFailure {α : Type} (r : Except CaughtError α) : Except String α :=
  match r with
  | .ok a => .ok a
  | .error e => .error (extractErrorMessage e)

/-- Modelled from the spec (claim C6's wording): the message is chosen
by the priority order "the response body's string `message` field if
present, else the response body's string `error` field, else the
transport-level error text, else a generic fallback string". -/
def claimedErrorMessage (e : CaughtError) : String :=
  let bodyMessage : Option String :=
    match e with
    | .axios (some (.obj (some (some x)) _)) _ => some x
    | _ => none
  let bodyError : Option String :=
    match e with
    | .axios (some (.obj _ (some (some y)))) _ => some y
    | _ => none
  let transportText : Option String :=
    match e with
    | .axios _ m => if m = "" then none else some m
    | .jsError m => if m = "" then none else some m
    | _ => none
  match bodyMessage with
  | some x => x
  | none =>
      match bodyError with
      | some y => y
      | none =>
          match transportText with
          | some t => t
          | none => "Request failed"

/-- The amended priority order that the code actually implements:
for an HTTP-layer failure — a bare string response body first, else the
body's string `message` field, else its string `error` field, else the
transport-level error text, else the generic `"Request failed"`; a
thrown `Error`'s own message; a thrown string itself; else the generic
`"Unknown error occurred"`. -/
def amendedErrorMessage (e : CaughtError) : String :=
  let stringBody : Option String :=
    match e with
    | .axios (some (.str s)) _ => some s
    | _ => none
  let bodyMessage : Option String :=
    match e with
    | .axios (some (.obj (some (some x)) _)) _ => some x
    | _ => none
  let bodyError : Option String :=
    match e with
    | .axios (some (.obj _ (some (some y)))) _ => some y
    | _ => none
  match e with
  | .axios _ m =>
      match stringBody with
      | some s => s
      | none =>
          match bodyMessage with
          | some x => x
          | none =>
              match bodyError with
              | some y => y
              | none => if m = "" then "Request failed" else m
  | .jsError m => m
  | .str s => s
  | .other => "Unknown error occurred"

/-! ## Drag-reorder of edition images
(`handleDragEnd`, `src/components/epaper/EpaperForm.tsx` lines 257-308) -/

/-- `arrayMove` of the dnd-kit sortable helpers, for an in-range source
index: remove the element at `i`, then insert it at `j` (the library's
`newArray.splice(to, 0, newArray.splice(from, 1)[0])`).  The handler
only ever calls it with indices returned by a successful `findIndex`;
for an out-of-range `i` the model leaves the list unchanged. -/
def arrayMove {α : Type} (l : List α) (i j : Nat) : List α :=
  match l[i]? with
  | none => l
  | some x => (l.eraseIdx i).insertIdx j x

/-- The page renumbering of `handleDragEnd`:
`reorderedImages.map((img, index) => ({...img, pageNumber: index + 1}))`. -/
def renumberPages (l : List EpaperImage) : List EpaperImage :=
  l.mapIdx fun index img => { img with pageNumber := index + 1 }

/-- The local-state reorder of `handleDragEnd` (lines 259-283): when a
drag ends over a different item, find both images by `_id`, apply
`arrayMove`, and renumber pages by new array position.  (The subsequent
`reorderEpaperImages` persistence call does not change the local list.) -/
def handleDragEnd (images : List EpaperImage)
    (activeId overId : String) : List EpaperImage :=
  if activeId ≠ overId then
    let oldIndex := images.findIdx (fun img => img._id = some activeId)
    let newIndex := images.findIdx (fun img => img._id = some overId)
    renumberPages (arrayMove images oldIndex newIndex)
  else images

/-! ## Concrete sample data for witnesses and counterexamples -/

/-- A sample decoded API user. -/
def sampleApiUser : ApiUser :=
  { _id := some "u1", fullName := some "Jordan Writer",
    email := some "jordan@example.com", userName := some "jordan",
    role := some "Admin" }

/-- A sample login response carrying a token. -/
def sampleAuthResponse : AuthResponse :=
  { token := some "tok123", user := sampleApiUser }

/-- A sample edition used by the landing-page witnesses. -/
def sampleEpaper : Epaper :=
  { _id := some "e1", name := "Morning Edition", date := "2025-01-15",
    status := "published" }

/-- Image A of the reorder example, page 1. -/
def imageA : EpaperImage := { _id := some "a", pageNumber := 1, imageUrl := "a.png" }

/-- Image B of the reorder example, page 2. -/
def imageB : EpaperImage := { _id := some "b", pageNumber := 2, imageUrl := "b.png" }

/-- Image C of the reorder example, page 3. -/
def imageC : EpaperImage := { _id := some "c", pageNumber := 3, imageUrl := "c.png" }

/-- The reorder example list `[A(page1), B(page2), C(page3)]`. -/
def exampleImages : List EpaperImage := [imageA, imageB, imageC]

/-- A `JSON.parse` that rejects its input, as the browser does on
malformed JSON. -/
def alwaysFailParse : String → Except String User :=
  fun _ => .error "Unexpected token o in JSON at position 1"

/-- A client state whose durable scope holds a malformed user entry. -/
def badPersistState : ClientState :=
  { localS := Store.setItem Store.empty USER_KEY "not json"
    sessionS := Store.empty
    httpToken := none }

/-- A Staff user, for the route-guard witness. -/
def sampleStaffUser : User :=
  { _id := "u2", id := "u2", fullName := "Sam Staff",
    email := "sam@example.com", userName := "sam", role := "Staff" }

/-- A 404 whose response body is the bare string `"Route not found"`
rather than a structured object. -/
def stringBodyError : CaughtError :=
  .axios (some (.str "Route not found")) "Request failed with status code 404"

/-! # Theorems -/

/-! ## Web Storage laws -/

theorem Store.getItem_empty (k : String) : Store.getItem Store.empty k = none := rfl

theorem Store.getItem_removeItem_self (s : Store) (k : String) :
    Store.getItem (Store.removeItem s k) k = none := by
  simp [Store.getItem, Store.removeItem]

theorem Store.getItem_removeItem_ne (s : Store) (k k' : String) (h : k' ≠ k) :
    Store.getItem (Store.removeItem s k) k' = Store.getItem s k' := by
  simp [Store.getItem, Store.removeItem, h]

theorem Store.getItem_setItem_self (s : Store) (k v : String) :
    Store.getItem (Store.setItem s k v) k = some v := by
  simp [Store.getItem, Store.setItem]

theorem Store.getItem_setItem_ne (s : Store) (k v k' : String) (h : k' ≠ k) :
    Store.getItem (Store.setItem s k v) k' = Store.getItem s k' := by
  simp [Store.getItem, Store.setItem, h]

/-- The two persisted keys are distinct. -/
theorem token_key_ne_user_key : TOKEN_KEY ≠ USER_KEY := by decide

/-- The two persisted keys are distinct (flipped orientation). -/
theorem user_key_ne_token_key : USER_KEY ≠ TOKEN_KEY := by decide

/-- `user.role || ""` is the role itself for a string-typed role. -/
theorem jsOr_some_empty (s : String) : jsOr (some s) "" = s := by
  by_cases h : s = "" <;> simp [jsOr, h]

/-! ## C1: which storage scopes a login writes -/

/-- Counterexample to claim C1 as stated: a successful login with
`remember = false` from a blank client state leaves the token in the
DURABLE scope (`localStorage`) as well — `authApi.login` persists every
response token via `setToken` before `AuthContext.login` picks the
`remember`-selected scope. -/
theorem remember_false_still_writes_durable_token :
    (contextLogin ClientState.empty sampleAuthResponse false).isOk = true ∧
    Store.getItem
        (okState (contextLogin ClientState.empty sampleAuthResponse false)).localS
        TOKEN_KEY = some "tok123" :=
  ⟨rfl, rfl⟩

/-- Claim C1 (amended): a successful login with `remember = true` writes
token and serialized user to the durable scope and leaves the tab scope
untouched; with `remember = false` it writes token and serialized user
to the tab scope and leaves the durable user entry untouched, but the
token is additionally written to the durable scope by the auth API
layer.  Both ways the token is propagated to the HTTP client. -/
theorem login_scope_selection (st : ClientState) (resp : AuthResponse)
    (t : String) (ht : resp.token = some t) (hne : t ≠ "") :
    ((contextLogin st resp true).isOk = true ∧
     Store.getItem (okState (contextLogin st resp true)).localS TOKEN_KEY
       = some t ∧
     Store.getItem (okState (contextLogin st resp true)).localS USER_KEY
       = some (stringifyUser (normalizeUser resp.user)) ∧
     (okState (contextLogin st resp true)).sessionS = st.sessionS ∧
     (okState (contextLogin st resp true)).httpToken = some t) ∧
    ((contextLogin st resp false).isOk = true ∧
     Store.getItem (okState (contextLogin st resp false)).sessionS TOKEN_KEY
       = some t ∧
     Store.getItem (okState (contextLogin st resp false)).sessionS USER_KEY
       = some (stringifyUser (normalizeUser resp.user)) ∧
     Store.getItem (okState (contextLogin st resp false)).localS TOKEN_KEY
       = some t ∧
     Store.getItem (okState (contextLogin st resp false)).localS USER_KEY
       = Store.getItem st.localS USER_KEY ∧
     (okState (contextLogin st resp false)).httpToken = some t) := by
  have hlogin : authApiLogin st resp = (setToken st (some t), resp.user) := by
    simp [authApiLogin, ht]
  refine ⟨⟨?_, ?_, ?_, ?_, ?_⟩, ?_, ?_, ?_, ?_, ?_, ?_⟩ <;>
    simp [contextLogin, hlogin, hne, okState, setToken, getToken,
      Store.getItem, Store.setItem, token_key_ne_user_key,
      user_key_ne_token_key, Except.isOk, Except.toBool]

/-- Witness for amended C1: from a blank state, a `remember = true`
login lands the token in the durable scope, a `remember = false` login
lands it in the tab scope. -/
theorem login_scope_selection_witness :
    Store.getItem
        (okState (contextLogin ClientState.empty sampleAuthResponse true)).localS
        TOKEN_KEY = some "tok123" ∧
    Store.getItem
        (okState (contextLogin ClientState.empty sampleAuthResponse false)).sessionS
        TOKEN_KEY = some "tok123" :=
  ⟨(login_scope_selection ClientState.empty sampleAuthResponse "tok123" rfl
      (by decide)).1.2.1,
   (login_scope_selection ClientState.empty sampleAuthResponse "tok123" rfl
      (by decide)).2.2.1⟩

/-! ## C7: logout clears both scopes and the propagated token -/

/-- Claim C7: every `logout` call removes the token and user entries
from both the durable scope (`localStorage`) and the tab scope
(`sessionStorage`), whatever state login left them in, and clears the
token propagated to the HTTP client. -/
theorem logout_clears_both_scopes_and_http_token (st : ClientState) :
    Store.getItem (logout st).localS TOKEN_KEY = none ∧
    Store.getItem (logout st).localS USER_KEY = none ∧
    Store.getItem (logout st).sessionS TOKEN_KEY = none ∧
    Store.getItem (logout st).sessionS USER_KEY = none ∧
    (logout st).httpToken = none := by
  refine ⟨?_, ?_, ?_, ?_, rfl⟩ <;>
    simp [logout, clearToken, setToken, Store.getItem, Store.removeItem,
      token_key_ne_user_key, user_key_ne_token_key]

/-! ## C9: malformed persisted user JSON fails closed -/

/-- Claim C9: startup session reconstruction is a total function of the
persisted storage content, and whenever the selected raw user entry does
not parse as JSON the reconstructed session has no user. -/
theorem initUser_malformed_gives_no_user
    (parse : String → Except String User) (st : ClientState) (raw e : String)
    (hraw : jsOrElse (Store.getItem st.localS USER_KEY)
        (Store.getItem st.sessionS USER_KEY) = some raw)
    (hparse : parse raw = .error e) :
    initUser parse st = none := by
  unfold initUser
  rw [hraw]
  by_cases h : raw = "" <;> simp [h, hparse]

/-- Witness for C9: a concrete malformed durable user entry and a
rejecting `JSON.parse` reconstruct to "no session". -/
theorem initUser_malformed_gives_no_user_witness :
    initUser alwaysFailParse badPersistState = none :=
  initUser_malformed_gives_no_user alwaysFailParse badPersistState
    "not json" "Unexpected token o in JSON at position 1" (by decide) rfl

/-! ## C10: empty `allowedRoles` list behaves like an absent one -/

/-- Claim C10: in `hasAccess`, an `allowedRoles` that is present but
empty is treated exactly like an absent one — every user (role present,
missing or empty) gets access — instead of the membership rule's "hide
from everyone" reading of an empty set. -/
theorem hasAccess_empty_list_like_absent (role : Option String) :
    hasAccess (some []) role = true ∧
    hasAccess (some []) role = hasAccess none role ∧
    (∀ r : String, r ∉ ([] : List String)) := by
  refine ⟨by simp [hasAccess], by simp [hasAccess], by simp⟩

/-- Witness for C10: a roleless user still sees an entry whose
`allowedRoles` is the empty list. -/
theorem hasAccess_empty_list_like_absent_witness :
    hasAccess (some []) none = true :=
  (hasAccess_empty_list_like_absent none).1

/-! ## C2: navigation visibility is exactly the allowed-roles rule -/

/-- Claim C2: for each role in {SuperAdmin, Admin, Staff} and each
`allowedRoles` annotation of the fixed navigation tree (top level and
sub-item level, each level checked independently), `hasAccess` grants
visibility iff the annotation is absent or the role is a member of it. -/
theorem nav_visibility_iff_allowed :
    ∀ r ∈ allRoles, ∀ ar ∈ navEntryAllowedRoles,
      (hasAccess ar (some r) = true ↔ (ar = none ∨ r ∈ ar.getD [])) := by
  decide

/-- Witness for C2: the "User" menu annotation, which excludes Staff. -/
theorem nav_visibility_iff_allowed_witness :
    hasAccess (some ["SuperAdmin", "Admin"]) (some "Staff") = true ↔
      ((some ["SuperAdmin", "Admin"] : Option (List String)) = none ∨
        "Staff" ∈ (some ["SuperAdmin", "Admin"] : Option (List String)).getD []) :=
  nav_visibility_iff_allowed "Staff" (by decide)
    (some ["SuperAdmin", "Admin"]) (by decide)

/-! ## C3: the route guard's four-way decision -/

/-- Claim C3: the route guard renders the loading state while the
session loads, redirects to `/signin` without a user, redirects to the
fallback path (default `"/"`) when a `roles` list is given and the
user's role is not in it, and renders the children otherwise. -/
theorem route_guard_decision (loading : Bool) (user : Option User)
    (roles : Option (List String)) (rt : String) :
    (loading = true → protectedRoute loading user roles rt = .loading) ∧
    (loading = false → user = none →
      protectedRoute loading user roles rt = .redirect "/signin") ∧
    (∀ u rs, loading = false → user = some u → roles = some rs →
      u.role ∉ rs → protectedRoute loading user roles rt = .redirect rt) ∧
    (∀ u rs, loading = false → user = some u → roles = some rs →
      u.role ∈ rs → protectedRoute loading user roles rt = .children) ∧
    (∀ u, loading = false → user = some u → roles = none →
      protectedRoute loading user roles rt = .children) ∧
    (∀ u rs, u.role ∉ rs →
      protectedRoute false (some u) (some rs) = .redirect "/") := by
  refine ⟨?_, ?_, ?_, ?_, ?_, ?_⟩
  · rintro rfl; simp [protectedRoute]
  · rintro rfl rfl; simp [protectedRoute]
  · rintro u rs rfl rfl rfl hmem
    simp [protectedRoute, jsOr_some_empty, hmem]
  · rintro u rs rfl rfl rfl hmem
    simp [protectedRoute, jsOr_some_empty, hmem]
  · rintro u rfl rfl rfl; simp [protectedRoute]
  · intro u rs hmem
    simp [protectedRoute, jsOr_some_empty, hmem]

/-- Witness for C3: a Staff user hitting an Admin-only region is
redirected to the default fallback `"/"`. -/
theorem route_guard_decision_witness :
    protectedRoute false (some sampleStaffUser) (some ["SuperAdmin", "Admin"]) "/" =
      .redirect "/" :=
  (route_guard_decision false (some sampleStaffUser)
      (some ["SuperAdmin", "Admin"]) "/").2.2.1 sampleStaffUser
    ["SuperAdmin", "Admin"] rfl rfl rfl (by decide)

/-! ## C4: edition lookup falls back to the latest published edition -/

/-- Claim C4: when the by-date lookup yields no edition (it throws, or
returns a falsy body), a run whose fallback query finds a published
edition ends with that edition displayed, no error, and the
"Showing latest edition" notice; a run whose fallback query finds
nothing ends with no edition and the no-edition message.  `loadEpaper`
is a total function of the two query outcomes, so no exception escapes
to the UI. -/
theorem lookup_fallback_behavior (prev : Option Epaper)
    (byDate : Except String (Option Epaper)) (P : Epaper)
    (hnf : (∃ m, byDate = .error m) ∨ byDate = .ok none) :
    ((loadEpaper prev byDate (.ok (some P))).epaper = some P ∧
     (loadEpaper prev byDate (.ok (some P))).error = none ∧
     (loadEpaper prev byDate (.ok (some P))).toast = some showingLatestToast) ∧
    ((loadEpaper prev byDate (.ok none)).epaper = none ∧
     (loadEpaper prev byDate (.ok none)).error =
       some "No published ePaper available" ∧
     (loadEpaper prev byDate (.ok none)).toast = some noEpaperToast) := by
  rcases hnf with ⟨m, rfl⟩ | rfl <;> simp [loadEpaper]

/-- Witness for C4: a 404 on the by-date query plus one published
edition ends with that edition displayed. -/
theorem lookup_fallback_behavior_witness :
    (loadEpaper none (.error "Request failed with status code 404")
        (.ok (some sampleEpaper))).epaper = some sampleEpaper :=
  (lookup_fallback_behavior none (.error "Request failed with status code 404")
      sampleEpaper (Or.inl ⟨"Request failed with status code 404", rfl⟩)).1.1

/-! ## C5: which failures of the by-date query trigger the fallback -/

/-- Counterexample to claim C5 as stated: a transport-level failure of
the by-date query (`"Network Error"`, not a clean not-found) still
triggers the fallback query, is not surfaced as an error state, and
ends with the fallback edition displayed — the inner `try/catch` of
`loadEpaper` cannot and does not distinguish failure kinds. -/
theorem byDate_transport_failure_still_falls_back :
    (loadEpaper none (.error "Network Error") (.ok (some sampleEpaper))).fallbackQueried
        = true ∧
    (loadEpaper none (.error "Network Error") (.ok (some sampleEpaper))).error = none ∧
    (loadEpaper none (.error "Network Error") (.ok (some sampleEpaper))).epaper
        = some sampleEpaper :=
  ⟨rfl, rfl, rfl⟩

/-- Claim C5 (amended): the fallback query is issued whenever the
by-date query yields no edition — on a clean not-found and on a
transport failure alike — and only then; an error state is surfaced iff
neither query yields an edition, i.e. only take effect through the
fallback step; one run issues each query at most once and retries
nothing. -/
theorem fallback_query_condition (prev : Option Epaper)
    (byDate latest : Except String (Option Epaper)) :
    ((loadEpaper prev byDate latest).fallbackQueried =
      match byDate with
      | .ok (some _) => false
      | _ => true) ∧
    ((loadEpaper prev byDate latest).error = none ↔
      ((∃ d, byDate = .ok (some d)) ∨ (∃ l, latest = .ok (some l)))) := by
  rcases byDate with m | od
  · rcases latest with m2 | ol
    · simp [loadEpaper]
    · rcases ol with _ | l <;> simp [loadEpaper]
  · rcases od with _ | d
    · rcases latest with m2 | ol
      · simp [loadEpaper]
      · rcases ol with _ | l <;> simp [loadEpaper]
    · simp [loadEpaper]

/-! ## C6: error message normalization priority -/

/-- Counterexample to claim C6 as stated: a failure whose response body
is the bare string `"Route not found"` has no `message` or `error`
field, so the claim's priority order picks the transport-level text
(`"Request failed with status code 404"`), but `extractErrorMessage`
returns the body string itself. -/
theorem string_body_beats_transport_text :
    extractErrorMessage stringBodyError = "Route not found" ∧
    claimedErrorMessage stringBodyError = "Request failed with status code 404" ∧
    extractErrorMessage stringBodyError ≠ claimedErrorMessage stringBodyError := by
  refine ⟨rfl, rfl, by decide⟩

/-- Claim C6 (amended): every failure reaches the caller as one
string-carrying error value (`new Error(extractErrorMessage(err))`), and
the message priority is: for an HTTP-layer failure a bare string
response body first, else the body's string `message` field, else its
string `error` field, else the transport-level error text, else the
generic `"Request failed"`; a thrown `Error`'s own message; a thrown
string itself; else the generic `"Unknown error occurred"`. -/
theorem error_normalization_priority (e : CaughtError) :
    extractErrorMessage e = amendedErrorMessage e ∧
    (∀ {α : Type} , normalizeFailure (α := α) (.error e) = .error (extractErrorMessage e)) := by
  refine ⟨?_, fun {α} => rfl⟩
  cases e with
  | axios data m =>
      rcases data with _ | sd
      · rfl
      · rcases sd with s | ⟨mm, ee⟩ | _
        · rfl
        · rcases mm with _ | mx
          · rcases ee with _ | ey
            · rfl
            · rcases ey with _ | y <;> rfl
          · rcases mx with _ | x
            · rcases ee with _ | ey
              · rfl
              · rcases ey with _ | y <;> rfl
            · rfl
        · rfl
  | jsError m => rfl
  | str s => rfl
  | other => rfl

/-! ## C8: drag-reorder renumbers pages contiguously -/

/-- The page numbers produced by `renumberPages` starting from any
offset: `mapIdx` with `i + k + 1` yields `range' (k+1)`. -/
theorem mapIdx_pageNumber_range (l : List EpaperImage) :
    ∀ k : Nat,
      (List.mapIdx (fun i img => { img with pageNumber := i + k + 1 }) l).map
          (·.pageNumber) = List.range' (k + 1) l.length := by
  induction l with
  | nil => intro k; rfl
  | cons a t ih =>
      intro k
      rw [List.mapIdx_cons]
      have hf : (fun i (img : EpaperImage) =>
            { img with pageNumber := i + 1 + k + 1 }) =
          (fun i (img : EpaperImage) =>
            { img with pageNumber := i + (k + 1) + 1 }) := by
        funext i img
        have : i + 1 + k + 1 = i + (k + 1) + 1 := by omega
        rw [this]
      simp only [List.map_cons, List.length_cons, List.range'_succ]
      have h0 : 0 + k + 1 = k + 1 := by omega
      rw [h0, hf, ih (k + 1)]

/-- `renumberPages` always yields the page numbers `1..N` in array
order. -/
theorem renumberPages_pageNumbers (l : List EpaperImage) :
    (renumberPages l).map (·.pageNumber) = List.range' 1 l.length := by
  have h := mapIdx_pageNumber_range l 0
  simpa [renumberPages] using h

/-- `arrayMove` with in-range indices is a permutation-by-position and
keeps the length. -/
theorem arrayMove_length {α : Type} (l : List α) (i j : Nat)
    (hi : i < l.length) (hj : j < l.length) :
    (arrayMove l i j).length = l.length := by
  unfold arrayMove
  rw [List.getElem?_eq_getElem hi]
  have he : (l.eraseIdx i).length = l.length - 1 := by
    rw [List.length_eraseIdx, if_pos hi]
  have hje : j ≤ (l.eraseIdx i).length := by omega
  rw [List.length_insertIdx _ _ hje, he]
  omega

/-- Claim C8: for a drag of the image with id `a` onto the image with id
`b` (distinct ids, both found in the list), the handler produces exactly
`arrayMove` of the list followed by rewriting every `pageNumber` to
array position + 1, so the page numbers are the contiguous `1..N`. -/
theorem drag_reorder_renumbers (images : List EpaperImage) (a b : String)
    (hab : a ≠ b)
    (ha : images.findIdx (fun img => img._id = some a) < images.length)
    (hb : images.findIdx (fun img => img._id = some b) < images.length) :
    handleDragEnd images a b =
      renumberPages (arrayMove images
        (images.findIdx (fun img => img._id = some a))
        (images.findIdx (fun img => img._id = some b))) ∧
    (handleDragEnd images a b).map (·.pageNumber) =
      List.range' 1 images.length := by
  have h1 : handleDragEnd images a b =
      renumberPages (arrayMove images
        (images.findIdx (fun img => img._id = some a))
        (images.findIdx (fun img => img._id = some b))) := by
    simp [handleDragEnd, hab]
  refine ⟨h1, ?_⟩
  rw [h1, renumberPages_pageNumbers, arrayMove_length images _ _ ha hb]

/-- Witness for C8: in `[A(page1), B(page2), C(page3)]`, dragging C onto
A yields `[C(page1), A(page2), B(page3)]`, pages `1, 2, 3`. -/
theorem drag_reorder_renumbers_witness :
    handleDragEnd exampleImages "c" "a" =
      [{ imageC with pageNumber := 1 },
       { imageA with pageNumber := 2 },
       { imageB with pageNumber := 3 }] ∧
    (handleDragEnd exampleImages "c" "a").map (·.pageNumber) =
      List.range' 1 exampleImages.length :=
  ⟨by decide,
   (drag_reorder_renumbers exampleImages "c" "a" (by decide) (by decide)
      (by decide)).2⟩

end EpaperApp
